import Mathlib

/-!
Shallow embedding of `src/bank_account.py` (darthmau5/BankAccount).

Amounts and balances are modelled as rationals (`ℚ`); the Python source
uses floats but performs only addition, subtraction, multiplication and
order comparisons on them, so the control flow is faithfully captured.
A mutating method `m(self, amount)` raising `ValueError` is embedded as
a function `m : Account → ℚ → Account × Option BankError`: on a raise the
returned account is the receiver unchanged (in the source every `raise`
happens before any mutation), on success it is the mutated receiver.
`print` calls and the wall-clock timestamp on `Transaction` are
presentation-only and are not modelled.
-/

namespace Bank

/-- Mirrors class `Transaction`: an amount and a type string
(`"Deposit"` or `"Withdrawal"` at every call site). The
`datetime.now()` timestamp is not modelled. -/
structure Transaction where
  amount : ℚ
  transaction_type : String
deriving DecidableEq, Repr

/-- The distinct `ValueError` outcomes raised in `bank_account.py`,
named as in the spec's error taxonomy:
`invalidAmount` for "Deposit amount must be positive." and
"Withdrawal amount must be positive.",
`insufficientFunds` for "Insufficient funds.",
`overdraftExceeded` for "Overdraft limit reached.". -/
inductive BankError where
  | invalidAmount
  | insufficientFunds
  | overdraftExceeded
deriving DecidableEq, Repr

/-- Mirrors `BankAccount.add_transaction`: `self.transactions.append(t)`. -/
def add_transaction (ts : List Transaction) (t : Transaction) : List Transaction :=
  ts ++ [t]

/-- Mirrors class `SavingsAccount` (fields of `BankAccount` plus
`interest_rate`). -/
structure SavingsAccount where
  owner : String
  balance : ℚ
  transactions : List Transaction
  interest_rate : ℚ
deriving DecidableEq, Repr

/-- Mirrors class `CheckingAccount` (fields of `BankAccount` plus
`overdraft_limit`). -/
structure CheckingAccount where
  owner : String
  balance : ℚ
  transactions : List Transaction
  overdraft_limit : ℚ
deriving DecidableEq, Repr

/-- Mirrors `SavingsAccount.deposit`. -/
def SavingsAccount.deposit (a : SavingsAccount) (amount : ℚ) :
    SavingsAccount × Option BankError :=
  if amount ≤ 0 then (a, some .invalidAmount)
  else ({ a with
            balance := a.balance + amount
            transactions := add_transaction a.transactions ⟨amount, "Deposit"⟩ }, none)

/-- Mirrors `SavingsAccount.withdraw`. -/
def SavingsAccount.withdraw (a : SavingsAccount) (amount : ℚ) :
    SavingsAccount × Option BankError :=
  if amount ≤ 0 then (a, some .invalidAmount)
  else if amount > a.balance then (a, some .insufficientFunds)
  else ({ a with
            balance := a.balance - amount
            transactions := add_transaction a.transactions ⟨amount, "Withdrawal"⟩ }, none)

/-- Mirrors `SavingsAccount.apply_interest`: computes
`interest = balance * interest_rate` and calls `self.deposit(interest)`;
an exception from `deposit` propagates with the state untouched. -/
def SavingsAccount.apply_interest (a : SavingsAccount) :
    SavingsAccount × Option BankError :=
  a.deposit (a.balance * a.interest_rate)

/-- Mirrors `CheckingAccount.deposit`. -/
def CheckingAccount.deposit (a : CheckingAccount) (amount : ℚ) :
    CheckingAccount × Option BankError :=
  if amount ≤ 0 then (a, some .invalidAmount)
  else ({ a with
            balance := a.balance + amount
            transactions := add_transaction a.transactions ⟨amount, "Deposit"⟩ }, none)

/-- Mirrors `CheckingAccount.withdraw`. -/
def CheckingAccount.withdraw (a : CheckingAccount) (amount : ℚ) :
    CheckingAccount × Option BankError :=
  if amount ≤ 0 then (a, some .invalidAmount)
  else if a.balance - amount < a.overdraft_limit then (a, some .overdraftExceeded)
  else ({ a with
            balance := a.balance - amount
            transactions := add_transaction a.transactions ⟨amount, "Withdrawal"⟩ }, none)

/-- One line of the output of `BankAccount.get_transaction_history`:
either the "No transactions found." notice or one printed transaction. -/
inductive HistLine where
  | noTransactions
  | entry (t : Transaction)
deriving DecidableEq, Repr

/-- Mirrors the body of `BankAccount.get_transaction_history`, which only
reads `self.transactions`: it prints "No transactions found." when the
list is empty and then prints each transaction in list order. -/
def historyOutput (ts : List Transaction) : List HistLine :=
  (if ts = [] then [HistLine.noTransactions] else []) ++ ts.map HistLine.entry

/-- Mirrors `BankAccount.get_transaction_history` on a savings account:
the produced output lines together with the (unmodified) receiver. -/
def SavingsAccount.get_transaction_history (a : SavingsAccount) :
    List HistLine × SavingsAccount :=
  (historyOutput a.transactions, a)

/-- Mirrors `BankAccount.get_transaction_history` on a checking account. -/
def CheckingAccount.get_transaction_history (a : CheckingAccount) :
    List HistLine × CheckingAccount :=
  (historyOutput a.transactions, a)

/-- The transaction extracted from one output line, if any. -/
def HistLine.tx : HistLine → Option Transaction
  | .noTransactions => none
  | .entry t => some t

/-- A call the shell can make on a savings account. -/
inductive SavOp where
  | dep (amount : ℚ)
  | wd (amount : ℚ)
  | interest
deriving DecidableEq, Repr

/-- A call the shell can make on a checking account. -/
inductive ChkOp where
  | dep (amount : ℚ)
  | wd (amount : ℚ)
deriving DecidableEq, Repr

/-- Dispatch of one call on a savings account. -/
def SavingsAccount.step (a : SavingsAccount) : SavOp → SavingsAccount × Option BankError
  | .dep x => a.deposit x
  | .wd x => a.withdraw x
  | .interest => a.apply_interest

/-- Dispatch of one call on a checking account. -/
def CheckingAccount.step (a : CheckingAccount) : ChkOp → CheckingAccount × Option BankError
  | .dep x => a.deposit x
  | .wd x => a.withdraw x

/-- The state of a savings account after a sequence of calls (a failed
call leaves the state unchanged; the run continues). -/
def runSav : SavingsAccount → List SavOp → SavingsAccount
  | a, [] => a
  | a, op :: ops => runSav (a.step op).1 ops

/-- The state of a checking account after a sequence of calls. -/
def runChk : CheckingAccount → List ChkOp → CheckingAccount
  | a, [] => a
  | a, op :: ops => runChk (a.step op).1 ops

/-- The transaction record a call appends when it succeeds, as built at
the `add_transaction` call sites in the source. -/
def savOpRecord (a : SavingsAccount) : SavOp → Transaction
  | .dep x => ⟨x, "Deposit"⟩
  | .wd x => ⟨x, "Withdrawal"⟩
  | .interest => ⟨a.balance * a.interest_rate, "Deposit"⟩

/-- The transaction record a checking-account call appends on success. -/
def chkOpRecord : ChkOp → Transaction
  | .dep x => ⟨x, "Deposit"⟩
  | .wd x => ⟨x, "Withdrawal"⟩

/-- The records of the successful calls of a run, in call order. -/
def savRecs : SavingsAccount → List SavOp → List Transaction
  | _, [] => []
  | a, op :: ops =>
      (if (a.step op).2 = none then [savOpRecord a op] else []) ++ savRecs (a.step op).1 ops

/-- The records of the successful checking-account calls, in call order. -/
def chkRecs : CheckingAccount → List ChkOp → List Transaction
  | _, [] => []
  | a, op :: ops =>
      (if (a.step op).2 = none then [chkOpRecord op] else []) ++ chkRecs (a.step op).1 ops

/-- The number of successful calls in a savings-account run. -/
def savSuccesses : SavingsAccount → List SavOp → Nat
  | _, [] => 0
  | a, op :: ops => (if (a.step op).2 = none then 1 else 0) + savSuccesses (a.step op).1 ops

/-- The number of successful calls in a checking-account run. -/
def chkSuccesses : CheckingAccount → List ChkOp → Nat
  | _, [] => 0
  | a, op :: ops => (if (a.step op).2 = none then 1 else 0) + chkSuccesses (a.step op).1 ops

/-- C1: for every amount a ≤ 0, `deposit(a)` and `withdraw(a)` fail with
`InvalidAmount` on both account kinds, and the failing call returns the
receiver unchanged, so balance and history length are exactly as before. -/
theorem C1_nonpositive_amounts_rejected (amt : ℚ) (h : amt ≤ 0)
    (s : SavingsAccount) (c : CheckingAccount) :
    s.deposit amt = (s, some .invalidAmount) ∧
    s.withdraw amt = (s, some .invalidAmount) ∧
    c.deposit amt = (c, some .invalidAmount) ∧
    c.withdraw amt = (c, some .invalidAmount) := by
  refine ⟨?_, ?_, ?_, ?_⟩ <;>
    simp [SavingsAccount.deposit, SavingsAccount.withdraw,
      CheckingAccount.deposit, CheckingAccount.withdraw, h]

/-- Witness for C1 at amount −5 on concrete accounts. -/
theorem C1_witness :
    (-5 : ℚ) ≤ 0 ∧
    (SavingsAccount.mk "Alice" 100 [] (2/100)).deposit (-5) =
      (SavingsAccount.mk "Alice" 100 [] (2/100), some .invalidAmount) ∧
    (SavingsAccount.mk "Alice" 100 [] (2/100)).withdraw (-5) =
      (SavingsAccount.mk "Alice" 100 [] (2/100), some .invalidAmount) ∧
    (CheckingAccount.mk "Bob" 0 [] (-500)).deposit (-5) =
      (CheckingAccount.mk "Bob" 0 [] (-500), some .invalidAmount) ∧
    (CheckingAccount.mk "Bob" 0 [] (-500)).withdraw (-5) =
      (CheckingAccount.mk "Bob" 0 [] (-500), some .invalidAmount) :=
  ⟨by norm_num,
   C1_nonpositive_amounts_rejected (-5) (by norm_num)
     (SavingsAccount.mk "Alice" 100 [] (2/100)) (CheckingAccount.mk "Bob" 0 [] (-500))⟩

/-- C2: whenever `deposit(a)` succeeds on either account kind, the new
balance is the old balance plus exactly a, exactly one record is appended
(history length grows by 1), and that record has amount a and type
"Deposit". -/
theorem C2_successful_deposit (s : SavingsAccount) (c : CheckingAccount) (amt : ℚ) :
    ((s.deposit amt).2 = none →
      (s.deposit amt).1.balance = s.balance + amt ∧
      (s.deposit amt).1.transactions = s.transactions ++ [⟨amt, "Deposit"⟩] ∧
      (s.deposit amt).1.transactions.length = s.transactions.length + 1) ∧
    ((c.deposit amt).2 = none →
      (c.deposit amt).1.balance = c.balance + amt ∧
      (c.deposit amt).1.transactions = c.transactions ++ [⟨amt, "Deposit"⟩] ∧
      (c.deposit amt).1.transactions.length = c.transactions.length + 1) := by
  constructor <;> intro h <;>
    simp only [SavingsAccount.deposit, CheckingAccount.deposit] at h ⊢ <;>
    split_ifs at h ⊢ <;> simp_all [add_transaction]

/-- Witness for C2: depositing 50 into Alice's savings account (balance
100) and into Bob's checking account (balance 0). -/
theorem C2_witness :
    (((SavingsAccount.mk "Alice" 100 [] (2/100)).deposit 50).1.balance = 100 + 50 ∧
      ((SavingsAccount.mk "Alice" 100 [] (2/100)).deposit 50).1.transactions =
        [] ++ [⟨50, "Deposit"⟩] ∧
      ((SavingsAccount.mk "Alice" 100 [] (2/100)).deposit 50).1.transactions.length =
        List.length ([] : List Transaction) + 1) ∧
    (((CheckingAccount.mk "Bob" 0 [] (-500)).deposit 50).1.balance = 0 + 50 ∧
      ((CheckingAccount.mk "Bob" 0 [] (-500)).deposit 50).1.transactions =
        [] ++ [⟨50, "Deposit"⟩] ∧
      ((CheckingAccount.mk "Bob" 0 [] (-500)).deposit 50).1.transactions.length =
        List.length ([] : List Transaction) + 1) :=
  ⟨(C2_successful_deposit (SavingsAccount.mk "Alice" 100 [] (2/100))
      (CheckingAccount.mk "Bob" 0 [] (-500)) 50).1
    (by norm_num [SavingsAccount.deposit]),
   (C2_successful_deposit (SavingsAccount.mk "Alice" 100 [] (2/100))
      (CheckingAccount.mk "Bob" 0 [] (-500)) 50).2
    (by norm_num [CheckingAccount.deposit])⟩

/-- C3: whenever `withdraw(a)` succeeds on either account kind, the new
balance is the old balance minus exactly a, exactly one record is
appended, and that record has amount a and type "Withdrawal". -/
theorem C3_successful_withdraw (s : SavingsAccount) (c : CheckingAccount) (amt : ℚ) :
    ((s.withdraw amt).2 = none →
      (s.withdraw amt).1.balance = s.balance - amt ∧
      (s.withdraw amt).1.transactions = s.transactions ++ [⟨amt, "Withdrawal"⟩] ∧
      (s.withdraw amt).1.transactions.length = s.transactions.length + 1) ∧
    ((c.withdraw amt).2 = none →
      (c.withdraw amt).1.balance = c.balance - amt ∧
      (c.withdraw amt).1.transactions = c.transactions ++ [⟨amt, "Withdrawal"⟩] ∧
      (c.withdraw amt).1.transactions.length = c.transactions.length + 1) := by
  constructor <;> intro h <;>
    simp only [SavingsAccount.withdraw, CheckingAccount.withdraw] at h ⊢ <;>
    split_ifs at h ⊢ <;> simp_all [add_transaction]

/-- Witness for C3: withdrawing 30 from Alice's savings account (balance
100) and from Bob's checking account (balance 0, limit −500). -/
theorem C3_witness :
    (((SavingsAccount.mk "Alice" 100 [] (2/100)).withdraw 30).1.balance = 100 - 30 ∧
      ((SavingsAccount.mk "Alice" 100 [] (2/100)).withdraw 30).1.transactions =
        [] ++ [⟨30, "Withdrawal"⟩] ∧
      ((SavingsAccount.mk "Alice" 100 [] (2/100)).withdraw 30).1.transactions.length =
        List.length ([] : List Transaction) + 1) ∧
    (((CheckingAccount.mk "Bob" 0 [] (-500)).withdraw 30).1.balance = 0 - 30 ∧
      ((CheckingAccount.mk "Bob" 0 [] (-500)).withdraw 30).1.transactions =
        [] ++ [⟨30, "Withdrawal"⟩] ∧
      ((CheckingAccount.mk "Bob" 0 [] (-500)).withdraw 30).1.transactions.length =
        List.length ([] : List Transaction) + 1) :=
  ⟨(C3_successful_withdraw (SavingsAccount.mk "Alice" 100 [] (2/100))
      (CheckingAccount.mk "Bob" 0 [] (-500)) 30).1
    (by norm_num [SavingsAccount.withdraw]),
   (C3_successful_withdraw (SavingsAccount.mk "Alice" 100 [] (2/100))
      (CheckingAccount.mk "Bob" 0 [] (-500)) 30).2
    (by norm_num [CheckingAccount.withdraw])⟩

/-- C4: on a savings account, for positive a, `withdraw(a)` fails with
`InsufficientFunds` exactly when a exceeds the balance, and at the
boundary a = balance it succeeds and drives the balance to exactly 0. -/
theorem C4_savings_floor (s : SavingsAccount) (amt : ℚ) (h : 0 < amt) :
    ((s.withdraw amt).2 = some .insufficientFunds ↔ s.balance < amt) ∧
    (amt = s.balance →
      (s.withdraw amt).2 = none ∧ (s.withdraw amt).1.balance = 0) := by
  have hle : ¬ amt ≤ 0 := not_le.mpr h
  constructor
  · simp only [SavingsAccount.withdraw, if_neg hle]
    split_ifs with hgt
    · simpa using hgt
    · simpa using hgt
  · intro heq
    subst heq
    simp [SavingsAccount.withdraw, if_neg hle, lt_irrefl]

/-- Witness for C4 on Alice's savings account (balance 100): withdrawing
100 is the boundary case, so it is not InsufficientFunds and succeeds
with final balance 0. -/
theorem C4_witness :
    (0 : ℚ) < 100 ∧
    (((SavingsAccount.mk "Alice" 100 [] (2/100)).withdraw 100).2 =
        some .insufficientFunds ↔ (100 : ℚ) < 100) ∧
    ((100 : ℚ) = 100 →
      ((SavingsAccount.mk "Alice" 100 [] (2/100)).withdraw 100).2 = none ∧
      ((SavingsAccount.mk "Alice" 100 [] (2/100)).withdraw 100).1.balance = 0) :=
  ⟨by norm_num,
   C4_savings_floor (SavingsAccount.mk "Alice" 100 [] (2/100)) 100 (by norm_num)⟩

/-- C5: on a checking account, for positive a, `withdraw(a)` fails with
`OverdraftExceeded` exactly when balance − a would drop below the
overdraft limit, and at the boundary balance − a = limit it succeeds,
leaving the balance exactly at the limit. -/
theorem C5_checking_floor (c : CheckingAccount) (amt : ℚ) (h : 0 < amt) :
    ((c.withdraw amt).2 = some .overdraftExceeded ↔
      c.balance - amt < c.overdraft_limit) ∧
    (c.balance - amt = c.overdraft_limit →
      (c.withdraw amt).2 = none ∧ (c.withdraw amt).1.balance = c.overdraft_limit) := by
  have hle : ¬ amt ≤ 0 := not_le.mpr h
  constructor
  · simp only [CheckingAccount.withdraw, if_neg hle]
    split_ifs with hlt
    · simpa using hlt
    · simpa using hlt
  · intro heq
    have hng : ¬ c.balance - amt < c.overdraft_limit := by rw [heq]; exact lt_irrefl _
    simp [CheckingAccount.withdraw, if_neg hle, hng, heq]

/-- Witness for C5 on Bob's checking account after his first withdrawal
(balance −400, limit −500), as in the spec scenario: withdrawing 200
would reach −600 < −500, so it fails with OverdraftExceeded. -/
theorem C5_witness :
    (0 : ℚ) < 200 ∧
    (((CheckingAccount.mk "Bob" (-400) [⟨400, "Withdrawal"⟩] (-500)).withdraw 200).2 =
        some .overdraftExceeded ↔ (-400 : ℚ) - 200 < -500) ∧
    ((-400 : ℚ) - 200 = -500 →
      ((CheckingAccount.mk "Bob" (-400) [⟨400, "Withdrawal"⟩] (-500)).withdraw 200).2 =
        none ∧
      ((CheckingAccount.mk "Bob" (-400) [⟨400, "Withdrawal"⟩] (-500)).withdraw 200).1.balance =
        -500) :=
  ⟨by norm_num,
   C5_checking_floor (CheckingAccount.mk "Bob" (-400) [⟨400, "Withdrawal"⟩] (-500)) 200
     (by norm_num)⟩


/-- One savings-account call keeps the balance nonnegative. -/
lemma sav_step_balance_nonneg (a : SavingsAccount) (op : SavOp) (h : 0 ≤ a.balance) :
    0 ≤ (a.step op).1.balance := by
  cases op <;>
    simp only [SavingsAccount.step, SavingsAccount.deposit, SavingsAccount.withdraw,
      SavingsAccount.apply_interest] <;>
    split_ifs <;> simp_all <;> linarith

/-- One checking-account call does not change the overdraft limit. -/
lemma chk_step_limit (a : CheckingAccount) (op : ChkOp) :
    (a.step op).1.overdraft_limit = a.overdraft_limit := by
  cases op <;>
    simp only [CheckingAccount.step, CheckingAccount.deposit, CheckingAccount.withdraw] <;>
    split_ifs <;> rfl

/-- One checking-account call keeps the balance at or above the limit. -/
lemma chk_step_balance_floor (a : CheckingAccount) (op : ChkOp)
    (h : a.overdraft_limit ≤ a.balance) :
    (a.step op).1.overdraft_limit ≤ (a.step op).1.balance := by
  rw [chk_step_limit]
  cases op <;>
    · simp only [CheckingAccount.step, CheckingAccount.deposit, CheckingAccount.withdraw]
      split_ifs <;> simp_all <;> linarith

/-- A run of checking-account calls does not change the overdraft limit. -/
lemma runChk_limit (ops : List ChkOp) : ∀ a : CheckingAccount,
    (runChk a ops).overdraft_limit = a.overdraft_limit := by
  induction ops with
  | nil => intro a; rfl
  | cons op ops ih =>
      intro a
      simp only [runChk]
      rw [ih, chk_step_limit]

/-- C6 as stated is false: the constructors accept any initial balance,
so with the empty call sequence a savings account constructed with
balance −1 is reachable and negative, and a checking account constructed
with balance −600 and limit −500 is reachable and below its limit. -/
theorem C6_counterexample :
    (runSav (SavingsAccount.mk "Mallory" (-1) [] (2/100)) []).balance < 0 ∧
    (runChk (CheckingAccount.mk "Mallory" (-600) [] (-500)) []).balance <
      (runChk (CheckingAccount.mk "Mallory" (-600) [] (-500)) []).overdraft_limit := by
  constructor <;> norm_num [runSav, runChk]

/-- C6 (amended): in every state reachable by deposit/withdraw/(savings)
apply_interest calls from a construction whose initial balance is ≥ 0
for savings, resp. ≥ the overdraft limit for checking, a savings balance
is never negative and a checking balance never falls below the account's
overdraft limit. -/
theorem C6_balance_floor_invariant :
    (∀ (s : SavingsAccount) (ops : List SavOp), 0 ≤ s.balance →
      0 ≤ (runSav s ops).balance) ∧
    (∀ (c : CheckingAccount) (ops : List ChkOp), c.overdraft_limit ≤ c.balance →
      c.overdraft_limit ≤ (runChk c ops).balance) := by
  constructor
  · intro s ops
    induction ops generalizing s with
    | nil => intro h; exact h
    | cons op ops ih =>
        intro h
        exact ih _ (sav_step_balance_nonneg s op h)
  · intro c ops
    have key : ∀ (ops : List ChkOp) (c : CheckingAccount), c.overdraft_limit ≤ c.balance →
        (runChk c ops).overdraft_limit ≤ (runChk c ops).balance := by
      intro ops
      induction ops with
      | nil => intro c h; exact h
      | cons op ops ih =>
          intro c h
          exact ih _ (chk_step_balance_floor c op h)
    intro h
    have hk := key ops c h
    rwa [runChk_limit] at hk

/-- Witness for C6 on the spec scenarios: Alice's savings account
(balance 100) run through deposit 50, withdraw 30, apply_interest, and
Bob's checking account (balance 0, limit −500) run through withdraw 400,
withdraw 200. -/
theorem C6_witness :
    ((0 : ℚ) ≤ 100 ∧
      0 ≤ (runSav (SavingsAccount.mk "Alice" 100 [] (2/100))
            [SavOp.dep 50, SavOp.wd 30, SavOp.interest]).balance) ∧
    ((-500 : ℚ) ≤ 0 ∧
      (-500 : ℚ) ≤ (runChk (CheckingAccount.mk "Bob" 0 [] (-500))
            [ChkOp.wd 400, ChkOp.wd 200]).balance) :=
  ⟨⟨by norm_num,
    C6_balance_floor_invariant.1 (SavingsAccount.mk "Alice" 100 [] (2/100))
      [SavOp.dep 50, SavOp.wd 30, SavOp.interest] (by norm_num)⟩,
   ⟨by norm_num,
    C6_balance_floor_invariant.2 (CheckingAccount.mk "Bob" 0 [] (-500))
      [ChkOp.wd 400, ChkOp.wd 200] (by norm_num)⟩⟩

/-- C7: `apply_interest` on a savings account with balance B and rate R
credits exactly B·R and appends one Deposit record of amount B·R when
B·R > 0, and fails with `InvalidAmount` leaving the account unchanged
when B·R ≤ 0. -/
theorem C7_apply_interest (s : SavingsAccount) :
    (0 < s.balance * s.interest_rate →
      s.apply_interest =
        ({ s with
             balance := s.balance + s.balance * s.interest_rate
             transactions :=
               s.transactions ++ [⟨s.balance * s.interest_rate, "Deposit"⟩] },
          none)) ∧
    (s.balance * s.interest_rate ≤ 0 →
      s.apply_interest = (s, some .invalidAmount)) := by
  constructor <;> intro h
  · have hn : ¬ s.balance * s.interest_rate ≤ 0 := not_le.mpr h
    simp [SavingsAccount.apply_interest, SavingsAccount.deposit, add_transaction, hn]
  · simp [SavingsAccount.apply_interest, SavingsAccount.deposit, h]

/-- Witness for C7: Alice's savings account with balance 120 and rate
2/100 accrues exactly 120·(2/100); Zed's account with rate 0 fails with
InvalidAmount and is unchanged. -/
theorem C7_witness :
    ((0 : ℚ) < 120 * (2/100) ∧
      (SavingsAccount.mk "Alice" 120 [] (2/100)).apply_interest =
        (SavingsAccount.mk "Alice" (120 + 120 * (2/100))
          [⟨120 * (2/100), "Deposit"⟩] (2/100), none)) ∧
    ((120 : ℚ) * 0 ≤ 0 ∧
      (SavingsAccount.mk "Zed" 120 [] 0).apply_interest =
        (SavingsAccount.mk "Zed" 120 [] 0, some .invalidAmount)) :=
  ⟨⟨by norm_num,
    (C7_apply_interest (SavingsAccount.mk "Alice" 120 [] (2/100))).1 (by norm_num)⟩,
   ⟨by norm_num,
    (C7_apply_interest (SavingsAccount.mk "Zed" 120 [] 0)).2 (by norm_num)⟩⟩

/-- One savings-account call appends exactly its record on success and
nothing on failure. -/
lemma sav_step_transactions (a : SavingsAccount) (op : SavOp) :
    (a.step op).1.transactions =
      a.transactions ++ (if (a.step op).2 = none then [savOpRecord a op] else []) := by
  cases op <;>
    simp only [SavingsAccount.step, SavingsAccount.deposit, SavingsAccount.withdraw,
      SavingsAccount.apply_interest, savOpRecord, add_transaction] <;>
    split_ifs <;> simp_all

/-- One checking-account call appends exactly its record on success and
nothing on failure. -/
lemma chk_step_transactions (a : CheckingAccount) (op : ChkOp) :
    (a.step op).1.transactions =
      a.transactions ++ (if (a.step op).2 = none then [chkOpRecord op] else []) := by
  cases op <;>
    simp only [CheckingAccount.step, CheckingAccount.deposit, CheckingAccount.withdraw,
      chkOpRecord, add_transaction] <;>
    split_ifs <;> simp_all

/-- After a savings run the history is the old history followed by the
records of the successful calls, in call order. -/
lemma runSav_transactions (ops : List SavOp) : ∀ a : SavingsAccount,
    (runSav a ops).transactions = a.transactions ++ savRecs a ops := by
  induction ops with
  | nil => intro a; simp [runSav, savRecs]
  | cons op ops ih =>
      intro a
      simp only [runSav, savRecs]
      rw [ih, sav_step_transactions, List.append_assoc]

/-- After a checking run the history is the old history followed by the
records of the successful calls, in call order. -/
lemma runChk_transactions (ops : List ChkOp) : ∀ a : CheckingAccount,
    (runChk a ops).transactions = a.transactions ++ chkRecs a ops := by
  induction ops with
  | nil => intro a; simp [runChk, chkRecs]
  | cons op ops ih =>
      intro a
      simp only [runChk, chkRecs]
      rw [ih, chk_step_transactions, List.append_assoc]

/-- There is exactly one record per successful savings call. -/
lemma savRecs_length (ops : List SavOp) : ∀ a : SavingsAccount,
    (savRecs a ops).length = savSuccesses a ops := by
  induction ops with
  | nil => intro a; simp [savRecs, savSuccesses]
  | cons op ops ih =>
      intro a
      simp only [savRecs, savSuccesses, List.length_append]
      rw [ih]
      split_ifs <;> simp

/-- There is exactly one record per successful checking call. -/
lemma chkRecs_length (ops : List ChkOp) : ∀ a : CheckingAccount,
    (chkRecs a ops).length = chkSuccesses a ops := by
  induction ops with
  | nil => intro a; simp [chkRecs, chkSuccesses]
  | cons op ops ih =>
      intro a
      simp only [chkRecs, chkSuccesses, List.length_append]
      rw [ih]
      split_ifs <;> simp

/-- C8: after any sequence of calls the history is exactly the initial
history followed by the records of the successful calls in the order
they were performed (nothing reordered, removed or deduplicated), and
its length is the initial length plus the number of successful calls. -/
theorem C8_history_accounting :
    (∀ (s : SavingsAccount) (ops : List SavOp),
      (runSav s ops).transactions = s.transactions ++ savRecs s ops ∧
      (runSav s ops).transactions.length =
        s.transactions.length + savSuccesses s ops) ∧
    (∀ (c : CheckingAccount) (ops : List ChkOp),
      (runChk c ops).transactions = c.transactions ++ chkRecs c ops ∧
      (runChk c ops).transactions.length =
        c.transactions.length + chkSuccesses c ops) := by
  constructor
  · intro s ops
    refine ⟨runSav_transactions ops s, ?_⟩
    rw [runSav_transactions ops s, List.length_append, savRecs_length]
  · intro c ops
    refine ⟨runChk_transactions ops c, ?_⟩
    rw [runChk_transactions ops c, List.length_append, chkRecs_length]

/-- The printed history lines carry exactly the stored transactions. -/
lemma historyOutput_tx (ts : List Transaction) :
    (historyOutput ts).filterMap HistLine.tx = ts := by
  unfold historyOutput
  split_ifs with h
  · subst h; rfl
  · simp only [List.nil_append, List.filterMap_map]
    have hc : HistLine.tx ∘ HistLine.entry = some := rfl
    rw [hc, List.filterMap_some]

/-- C9: `get_transaction_history` leaves the account unchanged, its
output lists the stored transactions in order, and on an empty history
it produces the "No transactions found." notice instead of failing. -/
theorem C9_history_view (s : SavingsAccount) (c : CheckingAccount) :
    (s.get_transaction_history.2 = s ∧
      s.get_transaction_history.1.filterMap HistLine.tx = s.transactions ∧
      (s.transactions = [] →
        s.get_transaction_history.1 = [HistLine.noTransactions])) ∧
    (c.get_transaction_history.2 = c ∧
      c.get_transaction_history.1.filterMap HistLine.tx = c.transactions ∧
      (c.transactions = [] →
        c.get_transaction_history.1 = [HistLine.noTransactions])) := by
  refine ⟨⟨rfl, historyOutput_tx _, ?_⟩, ⟨rfl, historyOutput_tx _, ?_⟩⟩ <;>
    intro h <;>
    simp [SavingsAccount.get_transaction_history,
      CheckingAccount.get_transaction_history, historyOutput, h]

/-- Witness for C9 on fresh accounts with empty histories. -/
theorem C9_witness :
    ((SavingsAccount.mk "Alice" 100 [] (2/100)).get_transaction_history.2 =
        SavingsAccount.mk "Alice" 100 [] (2/100) ∧
      (SavingsAccount.mk "Alice" 100 [] (2/100)).get_transaction_history.1.filterMap
        HistLine.tx = [] ∧
      (SavingsAccount.mk "Alice" 100 [] (2/100)).get_transaction_history.1 =
        [HistLine.noTransactions]) ∧
    ((CheckingAccount.mk "Bob" 0 [] (-500)).get_transaction_history.2 =
        CheckingAccount.mk "Bob" 0 [] (-500) ∧
      (CheckingAccount.mk "Bob" 0 [] (-500)).get_transaction_history.1.filterMap
        HistLine.tx = [] ∧
      (CheckingAccount.mk "Bob" 0 [] (-500)).get_transaction_history.1 =
        [HistLine.noTransactions]) :=
  ⟨⟨(C9_history_view (SavingsAccount.mk "Alice" 100 [] (2/100))
        (CheckingAccount.mk "Bob" 0 [] (-500))).1.1,
    (C9_history_view (SavingsAccount.mk "Alice" 100 [] (2/100))
        (CheckingAccount.mk "Bob" 0 [] (-500))).1.2.1,
    (C9_history_view (SavingsAccount.mk "Alice" 100 [] (2/100))
        (CheckingAccount.mk "Bob" 0 [] (-500))).1.2.2 rfl⟩,
   ⟨(C9_history_view (SavingsAccount.mk "Alice" 100 [] (2/100))
        (CheckingAccount.mk "Bob" 0 [] (-500))).2.1,
    (C9_history_view (SavingsAccount.mk "Alice" 100 [] (2/100))
        (CheckingAccount.mk "Bob" 0 [] (-500))).2.2.1,
    (C9_history_view (SavingsAccount.mk "Alice" 100 [] (2/100))
        (CheckingAccount.mk "Bob" 0 [] (-500))).2.2.2 rfl⟩⟩

/-- C10: every call, successful or failed, leaves owner unchanged on
both kinds, interest_rate unchanged on a savings account, and
overdraft_limit unchanged on a checking account. -/
theorem C10_frame (s : SavingsAccount) (c : CheckingAccount) (amt : ℚ) :
    ((s.deposit amt).1.owner = s.owner ∧
      (s.deposit amt).1.interest_rate = s.interest_rate) ∧
    ((s.withdraw amt).1.owner = s.owner ∧
      (s.withdraw amt).1.interest_rate = s.interest_rate) ∧
    (s.apply_interest.1.owner = s.owner ∧
      s.apply_interest.1.interest_rate = s.interest_rate) ∧
    ((c.deposit amt).1.owner = c.owner ∧
      (c.deposit amt).1.overdraft_limit = c.overdraft_limit) ∧
    ((c.withdraw amt).1.owner = c.owner ∧
      (c.withdraw amt).1.overdraft_limit = c.overdraft_limit) := by
  refine ⟨⟨?_, ?_⟩, ⟨?_, ?_⟩, ⟨?_, ?_⟩, ⟨?_, ?_⟩, ⟨?_, ?_⟩⟩ <;>
    simp only [SavingsAccount.deposit, SavingsAccount.withdraw,
      SavingsAccount.apply_interest, CheckingAccount.deposit,
      CheckingAccount.withdraw] <;>
    split_ifs <;> rfl

end Bank
